import Mathlib

/-!
Verification of the `setup` package of junevm/msifancontrol
(src/internal/setup/setup.go) against its natural-language specification.

The Go code is shallowly embedded: pure string manipulation is translated
to Lean functions on `String`/`List Char`; the effectful pipeline
(`RunFullSetup`, `runFullSetupUbuntu`, `CheckAndSetup`) is translated to
pure functions over an explicit environment record (command success,
file-system answers, `uname` output, ...) that return a result together
with an ordered trace of the external effects performed (log lines,
executed commands, directory creation/removal, file writes).  Go's
`defer os.RemoveAll(workDir)` is rendered by appending the removal effect
on every exit path of the corresponding function body, which is exactly
the defer semantics for a function-scoped deferred call.

Error messages that the Go code builds from OS error values (and that no
property depends on) are abbreviated to fixed strings such as
"command failed"; messages built by the code itself (`fmt.Errorf` with
only program data) are reproduced verbatim.
-/

namespace MsiFanControl

/-! ## Go string primitives -/

/-- Substring containment on char lists: `containsSub hay sub` is true iff
`sub` occurs contiguously inside `hay`.  Models Go `strings.Contains`
(byte-level in Go, char-level here; identical on the ASCII data involved). -/
def containsSub : List Char → List Char → Bool
  | hay, sub =>
    match hay with
    | [] => sub.isEmpty
    | _ :: t => sub.isPrefixOf hay || containsSub t sub

/-- `strings.Contains` on strings. -/
def goContains (s sub : String) : Bool :=
  containsSub s.toList sub.toList

/-- The whitespace class of Go `unicode.IsSpace`, restricted to the
Latin-1 range (the only characters that can occur in the data involved). -/
def goIsSpace (c : Char) : Bool :=
  c == ' ' || c == '\t' || c == '\n' || c == '\x0b' || c == '\x0c' || c == '\r'
    || c == '\u0085' || c == '\u00a0'

/-- Go `strings.TrimSpace`. -/
def goTrimSpace (s : String) : String :=
  (((s.toList.dropWhile goIsSpace).reverse.dropWhile goIsSpace).reverse).asString

/-- Split a char list at the first `'-'`: `none` when there is no dash,
otherwise the part before and the part after the first dash. -/
def splitFirstDashAux : List Char → Option (List Char × List Char)
  | [] => none
  | c :: cs =>
    if c == '-' then some ([], cs)
    else
      match splitFirstDashAux cs with
      | none => none
      | some (a, b) => some (c :: a, b)

/-- Go `strings.SplitN(s, "-", 2)`: one element when `s` has no dash,
otherwise the part before the first dash and everything after it. -/
def goSplitN2Dash (s : String) : List String :=
  match splitFirstDashAux s.toList with
  | none => [s]
  | some (a, b) => [a.asString, b.asString]

/-- Go `strings.Split(s, "-")[0]` (used for the upstream source URL). -/
def goBaseFirst (s : String) : String :=
  match splitFirstDashAux s.toList with
  | none => s
  | some (a, _) => a.asString

/-- Modelled from the spec's words ("base version (portion before first
`-`)"), for comparison with what the code computes. -/
def specBaseVersion (s : String) : String :=
  (s.toList.takeWhile (fun c => c != '-')).asString

/-- Modelled from the spec's words ("release suffix (portion after first
`-`)" / "text after the first `-`"), for comparison with the code. -/
def specSuffixAfterDash (s : String) : String :=
  ((s.toList.dropWhile (fun c => c != '-')).drop 1).asString

/-! ## EnvironmentProbe (isModuleLoaded / checkWriteSupport) -/

/-- The two status surfaces the probe reads: the contents of
`/proc/modules` and of `/sys/module/ec_sys/parameters/write_support`;
`none` models a read error (file absent or unreadable). -/
structure ModState where
  procModules : Option String
  writeSupport : Option String
  deriving Repr, DecidableEq

/-- Go `isModuleLoaded`: read `/proc/modules`; a read error yields
`false`; otherwise `strings.Contains(content, name)`. -/
def isModuleLoaded (s : ModState) (name : String) : Bool :=
  match s.procModules with
  | none => false
  | some content => goContains content name

/-- Go `checkWriteSupport`: read the write-support parameter file; a read
error yields `false`; otherwise the trimmed content equals "Y" or "1". -/
def checkWriteSupport (s : ModState) : Bool :=
  match s.writeSupport with
  | none => false
  | some content =>
    let val := goTrimSpace content
    val == "Y" || val == "1"

/-- The environment probe of the spec (`CheckCapability`): the entry
condition of Go `CheckAndSetup` — module loaded and write support on. -/
def checkCapability (s : ModState) : Bool :=
  isModuleLoaded s "ec_sys" && checkWriteSupport s

/-! ## CapabilityActivator (CheckAndSetup) -/

/-- Environment of `CheckAndSetup`: the initial status-file state, the
state transition caused by executing an external command (argv list), and
the command's reported exit status.  The two are independent because Go
reads the exit status separately from any later file reads. -/
structure ActEnv where
  init : ModState
  runEffect : List String → ModState → ModState
  cmdOk : List String → Bool

def modprobeRemoveArgv : List String := ["sudo", "modprobe", "-r", "ec_sys"]

def modprobeLoadArgv : List String := ["sudo", "modprobe", "ec_sys", "write_support=1"]

/-- Go `CheckAndSetup`, returning the Go error (as its message) and the
final status-file state.  In the loaded-without-write-support branch the
exit statuses of the unload and reload commands are discarded (`_ =` in
the source); only `checkWriteSupport` is consulted afterwards.  In the
not-loaded branch the load command's exit status gates a re-check of both
probe conditions. -/
def checkAndSetup (e : ActEnv) : Except String Unit × ModState :=
  let s0 := e.init
  if isModuleLoaded s0 "ec_sys" then
    if checkWriteSupport s0 then (.ok (), s0)
    else
      let s1 := e.runEffect modprobeRemoveArgv s0
      let s2 := e.runEffect modprobeLoadArgv s1
      if checkWriteSupport s2 then (.ok (), s2)
      else (.error "ec_sys loaded but write support refused", s2)
  else
    let s1 := e.runEffect modprobeLoadArgv s0
    if e.cmdOk modprobeLoadArgv then
      if isModuleLoaded s1 "ec_sys" && checkWriteSupport s1 then (.ok (), s1)
      else (.error "ec_sys module missing or failed to load", s1)
    else (.error "ec_sys module missing or failed to load", s1)

/-! ## ProvisioningPipeline: effects and environment -/

/-- One externally observable effect of the pipeline, in emission order. -/
inductive Eff where
  | log (line : String)
  | lookPath (name : String)
  | cmd (argv : List String) (dir : String)
  | mkdirTemp (pattern : String) (dir : String)
  | removeAll (dir : String)
  | mkdirAll (dir : String)
  | writeFile (path : String) (content : String)
  | appendFile (path : String) (content : String)
  deriving Repr, DecidableEq

abbrev Res := Except String Unit

/-- Environment of `RunFullSetup`: every host query the pipeline makes is
answered by a field.  Command exit status and output are functions of the
argv, directory listings and stat answers are functions of the path. -/
structure Env where
  euid : Int
  hasDnf : Bool
  hasApt : Bool
  unameR : String
  unameM : String
  cmdOk : List String → Bool
  cmdOut : List String → List String
  tmpDirOk : Bool
  tmpName : String → String
  mkdirAllOk : String → Bool
  dirEntries : String → List String
  statOk : String → Bool
  isNotExist : String → Bool
  readFile : String → Option String
  findLinuxDir : String → Option String
  openAppendOk : String → Bool
  writeStringOk : Bool
  writeFileOk : String → Bool

/-- Go `filepath.Join` on two well-formed components. -/
def joinPath (a b : String) : String := a ++ "/" ++ b

/-- The progress line the `runCmd` helper logs before starting a command:
`"Running: <base of path> <args[1:]>"`, which for an argv list is a
space-joined rendering of the whole list. -/
def runningLine (argv : List String) : String :=
  "Running: " ++ String.intercalate " " argv

/-- The `runCmd`/`run` helpers of Go `RunFullSetup`: announce the command,
execute it in `dir`, forward each output line as a progress event.
A failure (start or wait) is abbreviated to "command failed". -/
def runT (env : Env) (argv : List String) (dir : String) : Res × List Eff :=
  ((if env.cmdOk argv then .ok () else .error "command failed"),
    [Eff.log (runningLine argv), Eff.cmd argv dir] ++ (env.cmdOut argv).map Eff.log)

/-- A bare `exec.Command(...).Run()`: no announcement, no output capture. -/
def runQuietT (env : Env) (argv : List String) : Res × List Eff :=
  ((if env.cmdOk argv then .ok () else .error "command failed"), [Eff.cmd argv ""])

/-- Sequencing of two already-computed effectful steps: the second step's
result and effects count only when the first succeeded. -/
def seqRT (x : Res × List Eff) (k : Res × List Eff) : Res × List Eff :=
  match x.1 with
  | .error e => (.error e, x.2)
  | .ok _ => (k.1, x.2 ++ k.2)

/-- Go `strings.HasPrefix` (char-level, kernel-computable). -/
def goHasPrefix (s pre : String) : Bool :=
  pre.toList.isPrefixOf s.toList

/-- Go `strings.HasSuffix`. -/
def goHasSuffix (s suf : String) : Bool :=
  suf.toList.reverse.isPrefixOf s.toList.reverse

/-! ## Pipeline step 1: installDeps -/

def dnfInstallArgv (r : String) : List String :=
  ["sudo", "dnf", "install", "-y", "dnf-utils", "rpmdevtools", "ncurses-devel",
   "pesign", "elfutils-libelf-devel", "openssl-devel", "bison", "flex",
   "kernel-devel-" ++ r]

def aptUpdateArgv : List String := ["sudo", "apt-get", "update"]

def aptInstallArgv (r : String) : List String :=
  ["sudo", "apt-get", "install", "-y", "build-essential", "libncurses-dev",
   "bison", "flex", "libssl-dev", "libelf-dev", "linux-headers-" ++ r]

/-- The `installDeps` closure of Go `RunFullSetup`: look for `dnf` first,
then `apt-get`; install the matching dependency set (including the
kernel headers/devel package for the exact running release), or fail with
the unsupported-platform error. -/
def installDeps (env : Env) : Res × List Eff :=
  if env.hasDnf then
    let x := runT env (dnfInstallArgv env.unameR) ""
    (x.1, [Eff.lookPath "dnf", Eff.log "Detected dnf (Fedora/RHEL)..."] ++ x.2)
  else if env.hasApt then
    let x := seqRT (runT env aptUpdateArgv "") (runT env (aptInstallArgv env.unameR) "")
    (x.1, [Eff.lookPath "dnf", Eff.lookPath "apt-get",
         Eff.log "Detected apt (Ubuntu/Debian/Zorin)..."] ++ x.2)
  else
    (.error "could not find a supported package manager (dnf or apt)",
     [Eff.lookPath "dnf", Eff.lookPath "apt-get"])

/-! ## FamilyA (Fedora/RHEL) steps -/

def rpmDirsList : List String := ["BUILD", "RPMS", "SOURCES", "SPECS", "SRPMS"]

/-- Step 3: `os.MkdirAll` for each directory of the rpmbuild tree,
aborting at the first failure. -/
def mkTree (env : Env) (rpmbuildDir : String) : List String → Res × List Eff
  | [] => (.ok (), [])
  | d :: ds =>
    let p := joinPath rpmbuildDir d
    if env.mkdirAllOk p then
      let x := mkTree env rpmbuildDir ds
      (x.1, Eff.mkdirAll p :: x.2)
    else (.error "failed to create build tree directory", [Eff.mkdirAll p])

def repoEnableArgv : List String :=
  ["dnf", "config-manager", "--set-enabled", "fedora-source", "updates-source"]

/-- The package argument of the source download is built from the full
`uname -r` release string. -/
def dnfDownloadArgv (r : String) : List String :=
  ["dnf", "download", "--source", "kernel-" ++ r]

/-- Step 4: best-effort repository enablement (exit status discarded by
`_ =` in the source), then the source-package download, run in the
workspace directory. -/
def step4Download (env : Env) (workDir : String) : Res × List Eff :=
  let pre := [Eff.log "4/13 Downloading kernel source...", Eff.lookPath "dnf"]
  if env.hasDnf then
    let enableT := (runT env repoEnableArgv "").2
    let x := runT env (dnfDownloadArgv env.unameR) workDir
    ((match x.1 with
      | .ok _ => .ok ()
      | .error e => .error ("failed to download kernel source: " ++ e)),
     pre ++ enableT ++ x.2)
  else
    (.error "dnf not found. automated kernel source download only supported on Fedora/RHEL",
     pre)

/-- The search for the downloaded `.src.rpm`: first directory entry with
prefix `kernel-` and suffix `.src.rpm`. -/
def findSrcRpm (env : Env) (workDir : String) : Option String :=
  ((env.dirEntries workDir).find? (fun n =>
    goHasPrefix n "kernel-" && goHasSuffix n ".src.rpm")).map (joinPath workDir)

/-- Step 9's replacement line: Go computes
`parts := strings.SplitN(fullVersion, "-", 2)`, fails when there are
fewer than two parts, and otherwise produces
`"EXTRAVERSION = " + ("-" + parts[1])`. -/
def extraVersionLine (fullVersion : String) : Option String :=
  match goSplitN2Dash fullVersion with
  | [_, suf] => some ("EXTRAVERSION = " ++ ("-" ++ suf))
  | _ => none

/-- Go `replaceInFile`'s line loop: replace the first line starting with
`EXTRAVERSION =` and keep the rest. -/
def replaceExtra : List String → String → List String
  | [], _ => []
  | l :: ls, repl =>
    if goHasPrefix l "EXTRAVERSION =" then repl :: ls
    else l :: replaceExtra ls repl

/-- Go `replaceInFile`: read the file (silently doing nothing on a read
error), rewrite the `EXTRAVERSION` line, write the file back (write
errors also discarded).  Only the write is an observable effect. -/
def replaceInFileT (env : Env) (path repl : String) : List Eff :=
  match env.readFile path with
  | none => []
  | some content =>
    [Eff.writeFile path (String.intercalate "\n" (replaceExtra (content.splitOn "\n") repl))]

def configAppendLine : String := "\nCONFIG_ACPI_EC_DEBUGFS=m\n"

/-- Step 13: stat the built `ec_sys.ko`, create the per-release
extra-modules directory, copy the artifact there, refresh the module
dependency index. -/
def installStep (env : Env) (kb : String) : Res × List Eff :=
  let pre := [Eff.log "13/13 Installing module..."]
  let ko := joinPath (joinPath (joinPath kb "drivers") "acpi") "ec_sys.ko"
  if env.statOk ko then
    let destDir := "/lib/modules/" ++ env.unameR ++ "/extra"
    let x1 := runT env ["mkdir", "-p", destDir] ""
    match x1.1 with
    | .error e => (.error e, pre ++ x1.2)
    | .ok _ =>
      let x2 := runT env ["cp", ko, joinPath destDir "ec_sys.ko"] ""
      match x2.1 with
      | .error e => (.error e, pre ++ x1.2 ++ x2.2)
      | .ok _ =>
        let x3 := runT env ["depmod", "-a"] ""
        match x3.1 with
        | .error e => (.error e, pre ++ x1.2 ++ x2.2 ++ x3.2)
        | .ok _ =>
          (.ok (), pre ++ x1.2 ++ x2.2 ++ x3.2 ++ [Eff.log "Success! ec_sys.ko installed."])
  else (.error "ec_sys.ko not found after build", pre)

/-- Steps 11 and 12: `make modules_prepare`, the opportunistic
`Module.symvers` copy (only attempted when the stat succeeds), the
driver-subtree build, then step 13. -/
def after10 (env : Env) (kb : String) : Res × List Eff :=
  let pre := [Eff.log "11/13 Preparing build..."]
  let x1 := runT env ["make", "modules_prepare"] kb
  match x1.1 with
  | .error e => (.error e, pre ++ x1.2)
  | .ok _ =>
    let symvers := "/usr/src/kernels/" ++ env.unameR ++ "/Module.symvers"
    let x2 :=
      if env.statOk symvers then runT env ["cp", symvers, "."] kb else (.ok (), [])
    match x2.1 with
    | .error e => (.error e, pre ++ x1.2 ++ x2.2)
    | .ok _ =>
      let pre12 := [Eff.log "12/13 Building module (this may take a while)..."]
      let x3 := runT env ["make", "M=drivers/acpi", "modules"] kb
      match x3.1 with
      | .error e => (.error ("build failed: " ++ e), pre ++ x1.2 ++ x2.2 ++ pre12 ++ x3.2)
      | .ok _ =>
        let x4 := installStep env kb
        (x4.1, pre ++ x1.2 ++ x2.2 ++ pre12 ++ x3.2 ++ x4.2)

/-- Step 10: seed `.config` from the installed kernel's config, append the
debugfs option (open errors skipped silently, `WriteString` errors abort),
then steps 11–13. -/
def midSteps (env : Env) (kb : String) : Res × List Eff :=
  let pre := [Eff.log "10/13 Configuring kernel..."]
  let x1 := runT env ["cp", "/boot/config-" ++ env.unameR, ".config"] kb
  match x1.1 with
  | .error e => (.error e, pre ++ x1.2)
  | .ok _ =>
    let cfg := joinPath kb ".config"
    if env.openAppendOk cfg then
      if env.writeStringOk then
        let x := after10 env kb
        (x.1, pre ++ x1.2 ++ [Eff.appendFile cfg configAppendLine] ++ x.2)
      else (.error "write failed", pre ++ x1.2)
    else
      let x := after10 env kb
      (x.1, pre ++ x1.2 ++ x.2)

/-- Step 9: compute the `EXTRAVERSION` replacement from the running
release, failing on a release without a dash, patch the Makefile, then
steps 10–13. -/
def stepsFrom9 (env : Env) (kb : String) : Res × List Eff :=
  let pre := [Eff.log "9/13 Patching Makefile..."]
  match extraVersionLine env.unameR with
  | none => (.error ("unexpected kernel version format: " ++ env.unameR), pre)
  | some repl =>
    let patchT := replaceInFileT env (joinPath kb "Makefile") repl
    let x := midSteps env kb
    (x.1, pre ++ patchT ++ x.2)

/-- Steps 3–8 of the FamilyA strategy inside the workspace `w`, ending in
`stepsFrom9`.  The `filepath.Walk` search of step 8 is a pure local
file-system query and is abstracted by `env.findLinuxDir`. -/
def fedoraBody (env : Env) (w : String) : Res × List Eff :=
  let rpmbuildDir := joinPath w "rpmbuild"
  let pre3 := [Eff.log "3/13 Setting up RPM build tree..."]
  let x3 := mkTree env rpmbuildDir rpmDirsList
  match x3.1 with
  | .error e => (.error e, pre3 ++ x3.2)
  | .ok _ =>
    let x4 := step4Download env w
    match x4.1 with
    | .error e => (.error e, pre3 ++ x3.2 ++ x4.2)
    | .ok _ =>
      match findSrcRpm env w with
      | none => (.error "failed to find downloaded src.rpm", pre3 ++ x3.2 ++ x4.2)
      | some srcRpm =>
        let pre5 := [Eff.log "5/13 Installing build dependencies..."]
        let x5 := runT env ["dnf", "builddep", "-y", srcRpm] ""
        match x5.1 with
        | .error e => (.error e, pre3 ++ x3.2 ++ x4.2 ++ pre5 ++ x5.2)
        | .ok _ =>
          let pre6 := [Eff.log "6/13 Installing source RPM..."]
          let x6 := runT env ["rpm", "-i", "--define=_topdir " ++ rpmbuildDir, srcRpm] ""
          match x6.1 with
          | .error e => (.error e, pre3 ++ x3.2 ++ x4.2 ++ pre5 ++ x5.2 ++ pre6 ++ x6.2)
          | .ok _ =>
            let pre7 := [Eff.log "7/13 Preparing kernel source tree..."]
            let specsDir := joinPath rpmbuildDir "SPECS"
            let x7 := runT env
              ["rpmbuild", "-bp", "--define=_topdir " ++ rpmbuildDir,
               "--target=" ++ env.unameM, "kernel.spec"] specsDir
            let acc7 := pre3 ++ x3.2 ++ x4.2 ++ pre5 ++ x5.2 ++ pre6 ++ x6.2 ++ pre7 ++ x7.2
            match x7.1 with
            | .error e => (.error ("failed to prepare kernel source: " ++ e), acc7)
            | .ok _ =>
              let pre8 := [Eff.log "8/13 Locating build directory..."]
              match env.findLinuxDir (joinPath rpmbuildDir "BUILD") with
              | none => (.error "could not find kernel build directory", acc7 ++ pre8)
              | some kb =>
                let x9 := stepsFrom9 env kb
                (x9.1, acc7 ++ pre8 ++ x9.2)

/-- Step 2 and the deferred cleanup of the FamilyA branch: create the
temporary workspace, run the body, remove the workspace on every exit
path of the body (Go `defer os.RemoveAll(workDir)`). -/
def fedoraRun (env : Env) : Res × List Eff :=
  let pre := [Eff.log "2/13 Creating temporary directory..."]
  if env.tmpDirOk then
    let w := env.tmpName "ec_sys_build"
    let x := fedoraBody env w
    (x.1, pre ++ [Eff.mkdirTemp "ec_sys_build" w, Eff.log ("Working in " ++ w)]
          ++ x.2 ++ [Eff.removeAll w])
  else (.error "failed to create temporary directory", pre)

/-! ## FamilyB (Ubuntu/Debian) strategy -/

def ubuntuHeadersErr (r : String) : String :=
  "kernel headers not found. run: sudo apt install linux-headers-" ++ r

def ubuntuMakefileContent (headerDir : String) : String :=
  "obj-m := ec_sys.o\nall:\n\tmake -C " ++ headerDir ++ " M=$(PWD) modules\n"

def ubuntuSourceUrl (r : String) : String :=
  "https://raw.githubusercontent.com/torvalds/linux/refs/tags/v" ++ goBaseFirst r
    ++ "/drivers/acpi/ec_sys.c"

/-- The body of Go `runFullSetupUbuntu` after workspace creation: header
check (failing with the message naming the expected install command),
driver-source fetch, synthesized Makefile, build, and the `sudo`-driven
install/activate block (bare `.Run()`, no logging). -/
def ubuntuBody (env : Env) (w : String) : Res × List Eff :=
  let headerDir := "/lib/modules/" ++ env.unameR ++ "/build"
  if env.isNotExist headerDir then
    (.error (ubuntuHeadersErr env.unameR), [])
  else
    let pre := [Eff.log "Preparing source...", Eff.log "Downloading ec_sys.c from upstream..."]
    let x1 := runT env ["curl", "-L", ubuntuSourceUrl env.unameR, "-o",
                        joinPath w "ec_sys.c"] ""
    match x1.1 with
    | .error e => (.error ("failed to download ec_sys.c: " ++ e), pre ++ x1.2)
    | .ok _ =>
      let mkPath := joinPath w "Makefile"
      if env.writeFileOk mkPath then
        let wEff := [Eff.writeFile mkPath (ubuntuMakefileContent headerDir),
                     Eff.log "Building module..."]
        let x2 := runT env ["make"] w
        match x2.1 with
        | .error e => (.error ("module build failed: " ++ e), pre ++ x1.2 ++ wEff ++ x2.2)
        | .ok _ =>
          let pre3 := [Eff.log "Installing module..."]
          let ko := joinPath w "ec_sys.ko"
          let destDir := "/lib/modules/" ++ env.unameR ++ "/extra"
          let x3 := runQuietT env ["sudo", "mkdir", "-p", destDir]
          match x3.1 with
          | .error e => (.error e, pre ++ x1.2 ++ wEff ++ x2.2 ++ pre3 ++ x3.2)
          | .ok _ =>
            let x4 := runQuietT env ["sudo", "cp", ko, joinPath destDir "ec_sys.ko"]
            match x4.1 with
            | .error e => (.error e, pre ++ x1.2 ++ wEff ++ x2.2 ++ pre3 ++ x3.2 ++ x4.2)
            | .ok _ =>
              let x5 := runQuietT env ["sudo", "depmod", "-a"]
              match x5.1 with
              | .error e => (.error e, pre ++ x1.2 ++ wEff ++ x2.2 ++ pre3 ++ x3.2 ++ x4.2 ++ x5.2)
              | .ok _ =>
                let x6 := runQuietT env ["sudo", "modprobe", "ec_sys", "write_support=1"]
                match x6.1 with
                | .error e =>
                  (.error e, pre ++ x1.2 ++ wEff ++ x2.2 ++ pre3 ++ x3.2 ++ x4.2 ++ x5.2 ++ x6.2)
                | .ok _ =>
                  (.ok (), pre ++ x1.2 ++ wEff ++ x2.2 ++ pre3 ++ x3.2 ++ x4.2 ++ x5.2 ++ x6.2
                    ++ [Eff.log "Success! ec_sys module built and installed for Zorin/Ubuntu."])
      else (.error "write failed", pre ++ x1.2)

/-- Go `runFullSetupUbuntu`: opening log line, workspace creation with the
deferred removal on every exit path of the body. -/
def ubuntuRun (env : Env) : Res × List Eff :=
  let pre := [Eff.log "Starting Ubuntu-specific build for ec_sys module..."]
  if env.tmpDirOk then
    let w := env.tmpName "ec_sys_ubuntu"
    let x := ubuntuBody env w
    (x.1, pre ++ [Eff.mkdirTemp "ec_sys_ubuntu" w] ++ x.2 ++ [Eff.removeAll w])
  else (.error "failed to create temporary directory", pre)

/-- Go `RunFullSetup`: the effective-uid gate (before any log line or host
query), step 1 (`installDeps`), the second `apt-get` lookup selecting the
FamilyB branch, and otherwise the FamilyA branch. -/
def runFullSetup (env : Env) : Res × List Eff :=
  if env.euid ≠ 0 then (.error "setup requires root privileges (run with sudo)", [])
  else
    let pre := [Eff.log "Starting automated build of ec_sys module...",
                Eff.log "1/13 Installing build tools..."]
    let x1 := installDeps env
    match x1.1 with
    | .error e => (.error e, pre ++ x1.2)
    | .ok _ =>
      let acc := pre ++ x1.2 ++ [Eff.lookPath "apt-get"]
      if env.hasApt then
        let x := ubuntuRun env
        (x.1, acc ++ x.2)
      else
        let x := fedoraRun env
        (x.1, acc ++ x.2)

/-! ## Trace predicates -/

/-- Whether an effect is a workspace creation. -/
def Eff.isMkTemp : Eff → Bool
  | .mkdirTemp _ _ => true
  | _ => false

/-- Whether an effect is an execution of `curl` (the only network fetch of
the driver source in either strategy). -/
def Eff.isCurl : Eff → Bool
  | .cmd (c :: _) _ => c == "curl"
  | _ => false

/-- Whether an effect is the dependency-index refresh of the FamilyA
strategy (`depmod -a` run directly, not through `sudo`). -/
def isDepmodCmd : Eff → Bool
  | .cmd argv _ => decide (argv = ["depmod", "-a"])
  | _ => false

/-- Whether an effect is a `cp` whose destination is `dest`. -/
def isCpToDest (dest : String) : Eff → Bool
  | .cmd [a, _, d] _ => a == "cp" && d == dest
  | _ => false

/-- `wsCleaned t` holds when every workspace created in `t` is removed by
a strictly later effect of `t`. -/
def containsRemove : String → List Eff → Bool
  | _, [] => false
  | d, .removeAll d' :: t => d' == d || containsRemove d t
  | d, _ :: t => containsRemove d t

def wsCleaned : List Eff → Bool
  | [] => true
  | .mkdirTemp _ d :: t => containsRemove d t && wsCleaned t
  | _ :: t => wsCleaned t

/-- `depmodAfterCp dest t`: `t` contains a `cp` to `dest`, and a
`depmod -a` occurs strictly after the first such copy. -/
def depmodAfterCp : String → List Eff → Bool
  | _, [] => false
  | dest, e :: t => if isCpToDest dest e then t.any isDepmodCmd else depmodAfterCp dest t

/-- The install destination claimed for release `6.8.0-200.fc39.x86_64`. -/
def c5Dest : String := "/lib/modules/6.8.0-200.fc39.x86_64/extra/ec_sys.ko"

/-- Effects that are neither a dependency-index refresh nor a copy to the
FamilyA install destination. -/
def c5Clean (e : Eff) : Bool := !isDepmodCmd e && !(isCpToDest c5Dest e)

/-- Char-level split on a separator (computable by the kernel). -/
def splitOnChar (sep : Char) : List Char → List (List Char)
  | [] => [[]]
  | c :: cs =>
    if c == sep then [] :: splitOnChar sep cs
    else
      match splitOnChar sep cs with
      | [] => [[c]]
      | a :: rest => (c :: a) :: rest

/-- The module-name column of a `/proc/modules` line: the text before the
first space. -/
def firstColumn (line : String) : String :=
  ((splitOnChar ' ' line.toList).headD []).asString

/-- The lines of a file content. -/
def linesOf (content : String) : List String :=
  (splitOnChar '\n' content.toList).map List.asString

/-! ## Concrete sample environments -/

/-- A FamilyA host on which every external operation succeeds. -/
def sampleEnvA : Env where
  euid := 0
  hasDnf := true
  hasApt := false
  unameR := "6.8.0-200.fc39.x86_64"
  unameM := "x86_64"
  cmdOk := fun _ => true
  cmdOut := fun _ => []
  tmpDirOk := true
  tmpName := fun _ => "/tmp/build"
  mkdirAllOk := fun _ => true
  dirEntries := fun _ => ["kernel-6.8.0-200.fc39.src.rpm"]
  statOk := fun _ => true
  isNotExist := fun _ => false
  readFile := fun _ => some "EXTRAVERSION =\nNAME = x"
  findLinuxDir := fun _ => some "/tmp/build/rpmbuild/BUILD/linux-6.8.0"
  openAppendOk := fun _ => true
  writeStringOk := true
  writeFileOk := fun _ => true

/-- A FamilyB host whose kernel headers directory is absent. -/
def envHeadersMissing : Env :=
  { sampleEnvA with
      hasDnf := false
      hasApt := true
      unameR := "6.8.0-40-generic"
      isNotExist := fun _ => true }

/-- An activator environment in which the module starts loaded without
write support, and the unload/reload pair leaves a state whose
loaded-module list no longer mentions `ec_sys` while the stale
write-support file still reads `Y`. -/
def actEnvBad : ActEnv where
  init := ⟨some "ec_sys 16384 0 - Live 0x0", some "N"⟩
  runEffect := fun _ _ => ⟨some "", some "Y"⟩
  cmdOk := fun _ => true

/-- An activator environment in which the module is absent and the load
command genuinely loads it with write support. -/
def actEnvGood : ActEnv where
  init := ⟨some "msr 16384 0 - Live 0x0", some "N"⟩
  runEffect := fun _ _ => ⟨some "msr 16384 0 - Live 0x0\nec_sys 16384 0 - Live 0x0", some "Y"⟩
  cmdOk := fun _ => true

/-- A `/proc/modules` content in which `ec_sys` occurs only inside another
module's name, never as a module-name column. -/
def procModulesSample : String :=
  "msr 16384 0 - Live 0x0000000000000000\nec_sys_x 20480 1 foo, Live 0x0000000000000000"

/-! ## Bridging lemmas -/

theorem containsSub_iff_infix (hay sub : List Char) :
    containsSub hay sub = true ↔ sub <:+: hay := by
  induction hay with
  | nil =>
    simp only [containsSub, List.isEmpty_iff]
    constructor
    · rintro rfl; exact List.nil_infix
    · intro h; exact List.eq_nil_of_infix_nil h
  | cons c t ih =>
    rw [containsSub]
    simp only [Bool.or_eq_true, List.isPrefixOf_iff_prefix, ih, List.infix_cons_iff]

theorem goContains_iff_infix (s sub : String) :
    goContains s sub = true ↔ sub.toList <:+: s.toList := by
  rw [goContains, containsSub_iff_infix]

/-! ## C3: the probe is Ready iff loaded and write-enabled, never an error -/

/-- C3.  `checkCapability` (the Go probe, a total Boolean function and
hence never an error) returns Ready exactly when the loaded-module list
was readable and mentions `ec_sys` AND the write-support parameter file
was readable and reads `Y` or `1` after trimming; in particular an absent
or unreadable status file (modelled by `none`) always yields NotReady. -/
theorem c3_probe_ready_iff (pm ws : Option String) :
    (checkCapability ⟨pm, ws⟩ = true ↔
      ((∃ c, pm = some c ∧ ("ec_sys").toList <:+: c.toList) ∧
       (∃ v, ws = some v ∧ (goTrimSpace v = "Y" ∨ goTrimSpace v = "1")))) ∧
    (pm = none → checkCapability ⟨pm, ws⟩ = false) ∧
    (ws = none → checkCapability ⟨pm, ws⟩ = false) := by
  refine ⟨?_, ?_, ?_⟩
  · cases pm with
    | none => simp [checkCapability, isModuleLoaded]
    | some c =>
      cases ws with
      | none => simp [checkCapability, checkWriteSupport]
      | some v =>
        simp [checkCapability, isModuleLoaded, checkWriteSupport,
          goContains_iff_infix, beq_iff_eq]
  · intro h; subst h; simp [checkCapability, isModuleLoaded]
  · intro h; subst h; simp [checkCapability, checkWriteSupport]

/-- Witness for C3 at concrete status files: absent loaded-module list is
NotReady; a loaded module with trimmed `Y` parameter is Ready. -/
theorem c3_probe_ready_iff_witness :
    checkCapability ⟨none, some "Y"⟩ = false ∧
    checkCapability ⟨some "ec_sys 16384 0 - Live 0x0", some " Y\n"⟩ = true := by
  constructor
  · exact (c3_probe_ready_iff none (some "Y")).2.1 rfl
  · exact (c3_probe_ready_iff (some "ec_sys 16384 0 - Live 0x0") (some " Y\n")).1.mpr
      ⟨⟨_, rfl, by decide⟩, ⟨_, rfl, Or.inl (by decide)⟩⟩

/-! ## C10: the loaded-module check is a plain substring search -/

/-- C10.  `isModuleLoaded` is a substring search over the whole
loaded-module list content: it reports `ec_sys` loaded exactly when the
string `ec_sys` occurs anywhere in the content; in particular it reports
loaded on a content whose every module-name column differs from `ec_sys`
(here `ec_sys` occurs only inside the name `ec_sys_x`). -/
theorem c10_loaded_is_substring_search :
    (∀ (content : String) (ws : Option String),
        isModuleLoaded ⟨some content, ws⟩ "ec_sys" = true ↔
          ("ec_sys").toList <:+: content.toList) ∧
    (isModuleLoaded ⟨some procModulesSample, none⟩ "ec_sys" = true ∧
      (linesOf procModulesSample).all (fun l => firstColumn l != "ec_sys") = true) := by
  refine ⟨fun content ws => ?_, by decide, by decide⟩
  simp [isModuleLoaded, goContains_iff_infix]

/-! ## C9: the pipeline refuses to run without root -/

/-- C9.  A non-root caller gets the root-privileges error immediately:
the pipeline performs no effect at all — no log line, no package-manager
lookup, no command, no workspace creation. -/
theorem c9_requires_root (env : Env) (h : env.euid ≠ 0) :
    runFullSetup env = (.error "setup requires root privileges (run with sudo)", []) := by
  simp [runFullSetup, h]

/-- Witness for C9: a concrete environment with effective uid 1000. -/
theorem c9_requires_root_witness :
    runFullSetup { sampleEnvA with euid := 1000 } =
      (.error "setup requires root privileges (run with sudo)", []) :=
  c9_requires_root _ (by decide)

/-! ## C8: unsupported platform halts before any workspace -/

/-- C8.  When neither `dnf` (checked first) nor `apt-get` resolves, the
run fails with the unsupported-platform error after only the two opening
log lines and the two lookups; in particular no workspace is created. -/
theorem c8_unsupported_no_workspace (env : Env) (h0 : env.euid = 0)
    (hd : env.hasDnf = false) (ha : env.hasApt = false) :
    runFullSetup env =
      (.error "could not find a supported package manager (dnf or apt)",
       [Eff.log "Starting automated build of ec_sys module...",
        Eff.log "1/13 Installing build tools...",
        Eff.lookPath "dnf", Eff.lookPath "apt-get"]) ∧
    (runFullSetup env).2.all (fun e => ! e.isMkTemp) = true := by
  have key : runFullSetup env =
      (.error "could not find a supported package manager (dnf or apt)",
       [Eff.log "Starting automated build of ec_sys module...",
        Eff.log "1/13 Installing build tools...",
        Eff.lookPath "dnf", Eff.lookPath "apt-get"]) := by
    simp [runFullSetup, installDeps, h0, hd, ha]
  exact ⟨key, by rw [key]; decide⟩

/-- Witness for C8: a concrete environment with neither package manager. -/
theorem c8_unsupported_no_workspace_witness :
    runFullSetup { sampleEnvA with hasDnf := false, hasApt := false } =
      (.error "could not find a supported package manager (dnf or apt)",
       [Eff.log "Starting automated build of ec_sys module...",
        Eff.log "1/13 Installing build tools...",
        Eff.lookPath "dnf", Eff.lookPath "apt-get"]) :=
  (c8_unsupported_no_workspace _ rfl rfl rfl).1

/-! ## C1: the version-patch step (step 9) -/

theorem asString_toList (s : String) : (s.toList).asString = s := by
  cases s; rfl

theorem splitFirstDashAux_eq (l : List Char) :
    splitFirstDashAux l =
      if '-' ∈ l then
        some (l.takeWhile (fun c => c != '-'), (l.dropWhile (fun c => c != '-')).drop 1)
      else none := by
  induction l with
  | nil => simp [splitFirstDashAux]
  | cons c cs ih =>
    rw [splitFirstDashAux, ih]
    by_cases hc : c = '-'
    · subst hc
      simp [List.takeWhile_cons, List.dropWhile_cons]
    · have hcb : (c == '-') = false := by simp [hc]
      by_cases hm : '-' ∈ cs
      · simp [hcb, hc, hm, List.takeWhile_cons, List.dropWhile_cons]
      · simp [hcb, hc, hm, eq_comm]

theorem toList_concat_dash (base suf : String) :
    (base ++ "-" ++ suf).toList = base.toList ++ '-' :: suf.toList := by
  show (base ++ "-" ++ suf).data = base.data ++ '-' :: suf.data
  simp [String.data_append]

theorem extraVersionLine_none (r : String) (h : '-' ∉ r.toList) :
    extraVersionLine r = none := by
  unfold extraVersionLine goSplitN2Dash
  rw [splitFirstDashAux_eq]
  simp only [String.toList] at h
  simp [h]

theorem extraVersionLine_of_dash (r : String) (h : '-' ∈ r.toList) :
    extraVersionLine r = some ("EXTRAVERSION = -" ++ specSuffixAfterDash r) := by
  unfold extraVersionLine goSplitN2Dash specSuffixAfterDash
  rw [splitFirstDashAux_eq]
  simp only [String.toList] at h ⊢
  simp only [h, if_true, if_pos]
  rw [← String.append_assoc]
  rfl

theorem specSuffixAfterDash_concat (base suf : String) (h : '-' ∉ base.toList) :
    specSuffixAfterDash (base ++ "-" ++ suf) = suf := by
  unfold specSuffixAfterDash
  rw [toList_concat_dash]
  have hall : List.dropWhile (fun c => c != '-') base.toList = [] := by
    rw [List.dropWhile_eq_nil_iff]
    intro x hx
    simp only [bne_iff_ne, ne_eq, decide_not]
    intro hx2
    exact h (hx2 ▸ hx)
  rw [List.dropWhile_append, hall]
  simp only [List.isEmpty_nil, if_true, List.drop_one, List.tail_cons]
  exact asString_toList suf

/-- C1.  The FamilyA version-patch step: for every release string
containing a dash the computed replacement line is exactly
`EXTRAVERSION = -<suffix>` with `<suffix>` the text after the first dash
(stated both for an arbitrary dashed release and for the explicit
`<base>-<suffix>` decomposition); for a release without a dash, step 9
fails with the version-format error having performed only its opening log
line — no configure, build or install effect follows. -/
theorem c1_version_patch :
    (∀ r : String, '-' ∈ r.toList →
        extraVersionLine r = some ("EXTRAVERSION = -" ++ specSuffixAfterDash r)) ∧
    (∀ base suf : String, '-' ∉ base.toList →
        extraVersionLine (base ++ "-" ++ suf) = some ("EXTRAVERSION = -" ++ suf)) ∧
    (∀ (env : Env) (kb : String), '-' ∉ env.unameR.toList →
        stepsFrom9 env kb =
          (.error ("unexpected kernel version format: " ++ env.unameR),
           [Eff.log "9/13 Patching Makefile..."])) := by
  refine ⟨extraVersionLine_of_dash, fun base suf h => ?_, fun env kb h => ?_⟩
  · rw [extraVersionLine_of_dash _ (by rw [toList_concat_dash]; simp),
        specSuffixAfterDash_concat base suf h]
  · unfold stepsFrom9
    rw [extraVersionLine_none _ h]

/-- Witness for C1 at the release of the spec's example and at a
dash-free release. -/
theorem c1_version_patch_witness :
    extraVersionLine "6.8.0-200.fc39.x86_64" = some "EXTRAVERSION = -200.fc39.x86_64" ∧
    stepsFrom9 { sampleEnvA with unameR := "680" } "/kb" =
      (.error "unexpected kernel version format: 680", [Eff.log "9/13 Patching Makefile..."]) := by
  constructor
  · exact c1_version_patch.2.1 "6.8.0" "200.fc39.x86_64" (by decide)
  · exact c1_version_patch.2.2 _ "/kb" (by decide)

/-! ## C4: the activator does not fully re-verify in the reload branch -/

/-- C4 counterexample.  In `actEnvBad` the module starts loaded without
write support; after the unload/reload pair the loaded-module list no
longer mentions `ec_sys` while the write-support file reads `Y`.
`CheckAndSetup` returns Ready (nil) although the probe's postcondition
fails on the post-reload state — the loaded-module check was not re-run,
refuting the claim that both probe checks are re-run in this case. -/
theorem c4_counterexample :
    (checkAndSetup actEnvBad).1 = .ok () ∧
    checkCapability (checkAndSetup actEnvBad).2 = false ∧
    isModuleLoaded (checkAndSetup actEnvBad).2 "ec_sys" = false := by
  refine ⟨rfl, rfl, rfl⟩

/-- C4 amended.  Full characterization of `CheckAndSetup`: when already
Ready it returns Ready untouched; in the loaded-without-write-support case
it issues unload then reload and re-checks only the write-support
parameter, returning that verdict (and ignoring both commands' exit
statuses, so a failed unload/reload does not abort); in the not-loaded
case it returns Ready exactly when the load command reported success and
both probe checks pass on the post-load state. -/
theorem c4_amended_recheck (e : ActEnv) :
    (checkCapability e.init = true → checkAndSetup e = (.ok (), e.init)) ∧
    (isModuleLoaded e.init "ec_sys" = true → checkWriteSupport e.init = false →
      checkAndSetup e =
        (if checkWriteSupport (e.runEffect modprobeLoadArgv (e.runEffect modprobeRemoveArgv e.init)) then
           (.ok (), e.runEffect modprobeLoadArgv (e.runEffect modprobeRemoveArgv e.init))
         else (.error "ec_sys loaded but write support refused",
               e.runEffect modprobeLoadArgv (e.runEffect modprobeRemoveArgv e.init)))) ∧
    (isModuleLoaded e.init "ec_sys" = false →
      checkAndSetup e =
        (if e.cmdOk modprobeLoadArgv && checkCapability (e.runEffect modprobeLoadArgv e.init) then
           (.ok (), e.runEffect modprobeLoadArgv e.init)
         else (.error "ec_sys module missing or failed to load",
               e.runEffect modprobeLoadArgv e.init))) := by
  refine ⟨fun h => ?_, fun hl hw => ?_, fun hl => ?_⟩
  · have hl := (Bool.and_eq_true _ _).mp h
    simp [checkAndSetup, hl.1, hl.2]
  · simp [checkAndSetup, hl, hw]
  · simp only [checkAndSetup, checkCapability, hl, if_false, Bool.false_eq_true]
    by_cases hc : e.cmdOk modprobeLoadArgv
    · simp [hc]
    · simp [hc]

/-- Witness for C4's amended theorem: in `actEnvGood` the module is
absent, the load succeeds, and the re-run probe passes. -/
theorem c4_amended_recheck_witness :
    checkAndSetup actEnvGood =
      (.ok (), ⟨some "msr 16384 0 - Live 0x0\nec_sys 16384 0 - Live 0x0", some "Y"⟩) := by
  have h := (c4_amended_recheck actEnvGood).2.2 (by decide)
  rw [h]
  rfl

/-! ## C6: the source package downloaded is keyed by the full release -/

/-- C6 counterexample.  For release `6.8.0-200.fc39.x86_64` the download
command's package argument is `kernel-6.8.0-200.fc39.x86_64` — the full
release string — and not `kernel-` followed by the base version `6.8.0`
as the claim states. -/
theorem c6_counterexample :
    dnfDownloadArgv "6.8.0-200.fc39.x86_64" =
      ["dnf", "download", "--source", "kernel-6.8.0-200.fc39.x86_64"] ∧
    specBaseVersion "6.8.0-200.fc39.x86_64" = "6.8.0" ∧
    dnfDownloadArgv "6.8.0-200.fc39.x86_64" ≠
      ["dnf", "download", "--source", "kernel-" ++ specBaseVersion "6.8.0-200.fc39.x86_64"] := by
  refine ⟨rfl, rfl, by decide⟩

/-- C6 amended.  Step 4 of the FamilyA strategy: after the best-effort
repository enablement (whose command runs and is traced but whose exit
status does not influence the step's result), the step downloads the
source package named by the full running release string,
`kernel-<release>`, in the workspace directory; it fails only when that
download command fails. -/
theorem c6_amended_full_release (env : Env) (w : String) (h : env.hasDnf = true) :
    step4Download env w =
      ((if env.cmdOk (dnfDownloadArgv env.unameR) then .ok ()
        else .error "failed to download kernel source: command failed"),
       [Eff.log "4/13 Downloading kernel source...", Eff.lookPath "dnf",
        Eff.log (runningLine repoEnableArgv), Eff.cmd repoEnableArgv ""]
       ++ (env.cmdOut repoEnableArgv).map Eff.log
       ++ [Eff.log (runningLine (dnfDownloadArgv env.unameR)),
           Eff.cmd (dnfDownloadArgv env.unameR) w]
       ++ (env.cmdOut (dnfDownloadArgv env.unameR)).map Eff.log) := by
  simp only [step4Download, h, if_true, runT]
  by_cases hc : env.cmdOk (dnfDownloadArgv env.unameR)
  · simp [hc, List.append_assoc]
  · simp [hc, List.append_assoc]

/-- Witness for C6's amended theorem on a concrete FamilyA environment. -/
theorem c6_amended_full_release_witness :
    step4Download sampleEnvA "/tmp/build" =
      (.ok (),
       [Eff.log "4/13 Downloading kernel source...", Eff.lookPath "dnf",
        Eff.log (runningLine repoEnableArgv), Eff.cmd repoEnableArgv ""]
       ++ [Eff.log (runningLine (dnfDownloadArgv "6.8.0-200.fc39.x86_64")),
           Eff.cmd (dnfDownloadArgv "6.8.0-200.fc39.x86_64") "/tmp/build"]) := by
  rw [c6_amended_full_release sampleEnvA "/tmp/build" rfl]
  rfl

/-! ## C2: the workspace is removed on every exit path -/

/-- Recursive conjunction of a predicate over a trace. -/
def allP (p : Eff → Bool) : List Eff → Bool
  | [] => true
  | e :: t => p e && allP p t

def notMkT (e : Eff) : Bool := ! e.isMkTemp

theorem allP_append (p : Eff → Bool) (a b : List Eff) :
    allP p (a ++ b) = (allP p a && allP p b) := by
  induction a with
  | nil => simp [allP]
  | cons e t ih => simp [allP, ih, Bool.and_assoc]

theorem allP_eq_all (p : Eff → Bool) (t : List Eff) : allP p t = t.all p := by
  induction t with
  | nil => rfl
  | cons e t ih => simp [allP, ih]

@[simp] theorem notMkT_log (s : String) : notMkT (Eff.log s) = true := rfl

@[simp] theorem notMkT_lookPath (s : String) : notMkT (Eff.lookPath s) = true := rfl

@[simp] theorem notMkT_cmd (a : List String) (d : String) : notMkT (Eff.cmd a d) = true := rfl

@[simp] theorem notMkT_mkdirAll (p : String) : notMkT (Eff.mkdirAll p) = true := rfl

@[simp] theorem notMkT_removeAll (p : String) : notMkT (Eff.removeAll p) = true := rfl

@[simp] theorem notMkT_writeFile (p c : String) : notMkT (Eff.writeFile p c) = true := rfl

@[simp] theorem notMkT_appendFile (p c : String) : notMkT (Eff.appendFile p c) = true := rfl

@[simp] theorem allP_notMkT_map_log (l : List String) :
    allP notMkT (l.map Eff.log) = true := by
  induction l <;> simp_all [allP]

@[simp] theorem allP_notMkT_runT (env : Env) (argv : List String) (dir : String) :
    allP notMkT (runT env argv dir).2 = true := by
  simp [runT, allP, allP_append]

@[simp] theorem allP_notMkT_runQuietT (env : Env) (argv : List String) :
    allP notMkT (runQuietT env argv).2 = true := by
  simp [runQuietT, allP]

@[simp] theorem allP_notMkT_installDeps (env : Env) :
    allP notMkT (installDeps env).2 = true := by
  rw [installDeps]
  cases hd : env.hasDnf <;> cases ha : env.hasApt <;>
    simp [seqRT, allP, allP_append]
  cases hu : (runT env aptUpdateArgv "").1 <;> simp [*, allP, allP_append]

@[simp] theorem allP_notMkT_mkTree (env : Env) (rd : String) (ds : List String) :
    allP notMkT (mkTree env rd ds).2 = true := by
  induction ds with
  | nil => rfl
  | cons d ds ih =>
    rw [mkTree]
    by_cases h : env.mkdirAllOk (joinPath rd d) <;> simp [h, ih, allP]

@[simp] theorem allP_notMkT_step4Download (env : Env) (w : String) :
    allP notMkT (step4Download env w).2 = true := by
  rw [step4Download]
  by_cases h : env.hasDnf <;> simp [h, allP, allP_append]

@[simp] theorem allP_notMkT_installStep (env : Env) (kb : String) :
    allP notMkT (installStep env kb).2 = true := by
  rw [installStep]
  by_cases h1 : env.statOk (joinPath (joinPath (joinPath kb "drivers") "acpi") "ec_sys.ko")
  · simp only [h1, if_true]
    cases h2 : (runT env ["mkdir", "-p", "/lib/modules/" ++ env.unameR ++ "/extra"] "").1
    · simp [*, allP, allP_append]
    · cases h3 : (runT env ["cp", joinPath (joinPath (joinPath kb "drivers") "acpi") "ec_sys.ko",
          joinPath ("/lib/modules/" ++ env.unameR ++ "/extra") "ec_sys.ko"] "").1
      · simp [*, allP, allP_append]
      · cases h4 : (runT env ["depmod", "-a"] "").1 <;> simp [*, allP, allP_append]
  · simp [h1, allP]

@[simp] theorem allP_notMkT_after10 (env : Env) (kb : String) :
    allP notMkT (after10 env kb).2 = true := by
  rw [after10]
  have hmid : allP notMkT (if env.statOk ("/usr/src/kernels/" ++ env.unameR ++ "/Module.symvers")
      then runT env ["cp", "/usr/src/kernels/" ++ env.unameR ++ "/Module.symvers", "."] kb
      else ((.ok (), []) : Res × List Eff)).2 = true := by
    by_cases hs : env.statOk ("/usr/src/kernels/" ++ env.unameR ++ "/Module.symvers") <;>
      simp [hs, allP]
  cases h1 : (runT env ["make", "modules_prepare"] kb).1
  · simp [*, allP, allP_append]
  · cases h2 : (if env.statOk ("/usr/src/kernels/" ++ env.unameR ++ "/Module.symvers") then
        runT env ["cp", "/usr/src/kernels/" ++ env.unameR ++ "/Module.symvers", "."] kb
      else ((.ok (), []) : Res × List Eff)).1
    · simp [h2, allP, allP_append, hmid]
    · cases h3 : (runT env ["make", "M=drivers/acpi", "modules"] kb).1 <;>
        simp [h2, h3, allP, allP_append, hmid]

@[simp] theorem allP_notMkT_midSteps (env : Env) (kb : String) :
    allP notMkT (midSteps env kb).2 = true := by
  rw [midSteps]
  cases h1 : (runT env ["cp", "/boot/config-" ++ env.unameR, ".config"] kb).1
  · simp [*, allP, allP_append]
  · by_cases h2 : env.openAppendOk (joinPath kb ".config") <;>
      cases h3 : env.writeStringOk <;> simp [h2, h3, allP, allP_append]

@[simp] theorem allP_notMkT_stepsFrom9 (env : Env) (kb : String) :
    allP notMkT (stepsFrom9 env kb).2 = true := by
  rw [stepsFrom9]
  cases hE : extraVersionLine env.unameR
  · simp [allP]
  · cases hR : env.readFile (joinPath kb "Makefile") <;>
      simp [replaceInFileT, hR, allP, allP_append]

@[simp] theorem allP_notMkT_fedoraBody (env : Env) (w : String) :
    allP notMkT (fedoraBody env w).2 = true := by
  rw [fedoraBody]
  cases h3 : (mkTree env (joinPath w "rpmbuild") rpmDirsList).1
  · simp [*, allP, allP_append]
  · cases h4 : (step4Download env w).1
    · simp [*, allP, allP_append]
    · cases hS : findSrcRpm env w
      · simp [*, allP, allP_append]
      · rename_i srcRpm
        cases h5 : (runT env ["dnf", "builddep", "-y", srcRpm] "").1
        · simp [*, allP, allP_append]
        · cases h6 : (runT env ["rpm", "-i", "--define=_topdir " ++ joinPath w "rpmbuild",
              srcRpm] "").1
          · simp [*, allP, allP_append]
          · cases h7 : (runT env ["rpmbuild", "-bp",
                "--define=_topdir " ++ joinPath w "rpmbuild", "--target=" ++ env.unameM,
                "kernel.spec"] (joinPath (joinPath w "rpmbuild") "SPECS")).1
            · simp [*, allP, allP_append]
            · cases h8 : env.findLinuxDir (joinPath (joinPath w "rpmbuild") "BUILD") <;>
                simp [*, allP, allP_append]

@[simp] theorem allP_notMkT_ubuntuBody (env : Env) (w : String) :
    allP notMkT (ubuntuBody env w).2 = true := by
  rw [ubuntuBody]
  by_cases h0 : env.isNotExist ("/lib/modules/" ++ env.unameR ++ "/build")
  · simp [h0, allP]
  · simp only [h0, Bool.false_eq_true, if_false, if_neg]
    cases h1 : (runT env ["curl", "-L", ubuntuSourceUrl env.unameR, "-o",
        joinPath w "ec_sys.c"] "").1
    · simp [*, allP, allP_append]
    · by_cases h2 : env.writeFileOk (joinPath w "Makefile")
      · simp only [h2, if_true]
        cases h3 : (runT env ["make"] w).1
        · simp [*, allP, allP_append]
        · cases h4 : (runQuietT env ["sudo", "mkdir", "-p",
              "/lib/modules/" ++ env.unameR ++ "/extra"]).1
          · simp [*, allP, allP_append]
          · cases h5 : (runQuietT env ["sudo", "cp", joinPath w "ec_sys.ko",
                joinPath ("/lib/modules/" ++ env.unameR ++ "/extra") "ec_sys.ko"]).1
            · simp [*, allP, allP_append]
            · cases h6 : (runQuietT env ["sudo", "depmod", "-a"]).1
              · simp [*, allP, allP_append]
              · cases h7 : (runQuietT env ["sudo", "modprobe", "ec_sys",
                    "write_support=1"]).1 <;> simp [*, allP, allP_append]
      · simp [h2, allP, allP_append]

theorem wsCleaned_of_allP (t : List Eff) (h : allP notMkT t = true) : wsCleaned t = true := by
  induction t with
  | nil => rfl
  | cons e t ih =>
    rw [allP] at h
    cases e <;> simp_all [wsCleaned, notMkT, Eff.isMkTemp]

theorem wsCleaned_append_left (a b : List Eff) (h : allP notMkT a = true) :
    wsCleaned (a ++ b) = wsCleaned b := by
  induction a with
  | nil => rfl
  | cons e t ih =>
    rw [allP] at h
    cases e <;> simp_all [wsCleaned, notMkT, Eff.isMkTemp]

theorem containsRemove_append (d : String) (a b : List Eff) :
    containsRemove d (a ++ b) = (containsRemove d a || containsRemove d b) := by
  induction a with
  | nil => simp [containsRemove]
  | cons e t ih => cases e <;> simp_all [containsRemove, Bool.or_assoc]

/-- C2.  Scoped workspace lifetime: in every run of the pipeline, in
either strategy and on every exit path (success or failure at any step),
each created build workspace is removed by a strictly later effect of the
same run's trace (`wsCleaned`); runs that never reach workspace creation
satisfy this vacuously. -/
theorem c2_workspace_removed (env : Env) : wsCleaned (runFullSetup env).2 = true := by
  rw [runFullSetup]
  by_cases h0 : env.euid = 0
  case neg => simp [h0, wsCleaned]
  case pos =>
    simp only [h0, ne_eq, not_true_eq_false, if_false]
    cases h1 : (installDeps env).1
    case error e =>
      simp only [h1]
      apply wsCleaned_of_allP
      simp [allP, allP_append]
    case ok u =>
      simp only [h1]
      cases h2 : env.hasApt
      case true =>
        rw [ubuntuRun]
        by_cases h3 : env.tmpDirOk
        case pos =>
          simp only [h2, h3, if_true]
          simp only [List.append_assoc, List.cons_append, List.singleton_append,
            List.nil_append]
          simp only [wsCleaned]
          rw [wsCleaned_append_left _ _ (allP_notMkT_installDeps env)]
          simp only [wsCleaned]
          rw [containsRemove_append]
          have hb : wsCleaned ((ubuntuBody env (env.tmpName "ec_sys_ubuntu")).2
              ++ [Eff.removeAll (env.tmpName "ec_sys_ubuntu")]) = true := by
            apply wsCleaned_of_allP
            rw [allP_append]
            simp [allP]
          simp [containsRemove, hb]
        case neg =>
          simp only [h2, h3, if_false]
          apply wsCleaned_of_allP
          simp [allP, allP_append]
      case false =>
        rw [fedoraRun]
        by_cases h3 : env.tmpDirOk
        case pos =>
          simp only [h2, h3, if_true, Bool.false_eq_true, if_false]
          simp only [List.append_assoc, List.cons_append, List.singleton_append,
            List.nil_append]
          simp only [wsCleaned]
          rw [wsCleaned_append_left _ _ (allP_notMkT_installDeps env)]
          simp only [wsCleaned, containsRemove]
          rw [containsRemove_append]
          have hb : wsCleaned ((fedoraBody env (env.tmpName "ec_sys_build")).2
              ++ [Eff.removeAll (env.tmpName "ec_sys_build")]) = true := by
            apply wsCleaned_of_allP
            rw [allP_append]
            simp [allP]
          simp [containsRemove, hb]
        case neg =>
          simp only [h2, h3, if_false, Bool.false_eq_true]
          apply wsCleaned_of_allP
          simp [allP, allP_append]

/-! ## C7: the FamilyB headers-missing failure -/

def notCurl (e : Eff) : Bool := ! e.isCurl

@[simp] theorem notCurl_log (s : String) : notCurl (Eff.log s) = true := rfl

@[simp] theorem notCurl_lookPath (s : String) : notCurl (Eff.lookPath s) = true := rfl

@[simp] theorem notCurl_mkdirTemp (p d : String) : notCurl (Eff.mkdirTemp p d) = true := rfl

@[simp] theorem notCurl_removeAll (p : String) : notCurl (Eff.removeAll p) = true := rfl

@[simp] theorem notCurl_mkdirAll (p : String) : notCurl (Eff.mkdirAll p) = true := rfl

@[simp] theorem notCurl_sudo (rest : List String) (d : String) :
    notCurl (Eff.cmd ("sudo" :: rest) d) = true := rfl

@[simp] theorem allP_notCurl_map_log (l : List String) :
    allP notCurl (l.map Eff.log) = true := by
  induction l <;> simp_all [allP]

theorem allP_notCurl_runT (env : Env) (argv : List String) (dir : String)
    (h : notCurl (Eff.cmd argv dir) = true) :
    allP notCurl (runT env argv dir).2 = true := by
  simp [runT, allP, allP_append, h]

@[simp] theorem allP_notCurl_installDeps (env : Env) :
    allP notCurl (installDeps env).2 = true := by
  rw [installDeps]
  cases hd : env.hasDnf <;> cases ha : env.hasApt <;>
    simp [seqRT, runT, allP, allP_append, dnfInstallArgv, aptUpdateArgv, aptInstallArgv]
  cases hu : (if env.cmdOk ["sudo", "apt-get", "update"] then (Except.ok () : Res)
      else Except.error "command failed") <;>
    simp [allP, allP_append, aptInstallArgv]

/-- C7 amended.  When the running kernel's header directory
`/lib/modules/<release>/build` is absent on a FamilyB host, the pipeline
fails immediately after workspace creation with the message naming the
expected header-install command (`sudo apt install linux-headers-<release>`)
— but not the missing path — and performs no further effect inside the
FamilyB strategy beyond the deferred workspace removal; in particular no
network fetch of the driver source (`curl`) occurs anywhere in the run.
(The shared dependency-install step 1 has, by this point, already run
`apt-get install ... linux-headers-<release>` as part of the dependency
set — see the counterexample — so "headers are never installed
automatically" holds only for the FamilyB strategy steps themselves.) -/
theorem c7_amended_headers_missing (env : Env)
    (h0 : env.euid = 0) (ha : env.hasApt = true)
    (hdeps : (installDeps env).1 = .ok ())
    (htmp : env.tmpDirOk = true)
    (hmiss : env.isNotExist ("/lib/modules/" ++ env.unameR ++ "/build") = true) :
    runFullSetup env =
      (.error (ubuntuHeadersErr env.unameR),
       [Eff.log "Starting automated build of ec_sys module...",
        Eff.log "1/13 Installing build tools..."] ++ (installDeps env).2
       ++ [Eff.lookPath "apt-get",
           Eff.log "Starting Ubuntu-specific build for ec_sys module...",
           Eff.mkdirTemp "ec_sys_ubuntu" (env.tmpName "ec_sys_ubuntu"),
           Eff.removeAll (env.tmpName "ec_sys_ubuntu")]) ∧
    allP notCurl (runFullSetup env).2 = true := by
  have key : runFullSetup env =
      (.error (ubuntuHeadersErr env.unameR),
       [Eff.log "Starting automated build of ec_sys module...",
        Eff.log "1/13 Installing build tools..."] ++ (installDeps env).2
       ++ [Eff.lookPath "apt-get",
           Eff.log "Starting Ubuntu-specific build for ec_sys module...",
           Eff.mkdirTemp "ec_sys_ubuntu" (env.tmpName "ec_sys_ubuntu"),
           Eff.removeAll (env.tmpName "ec_sys_ubuntu")]) := by
    rw [runFullSetup]
    simp only [h0, ne_eq, not_true_eq_false, if_false, hdeps, ha, if_true]
    rw [ubuntuRun]
    simp only [ubuntuBody, htmp, hmiss, if_true]
    simp [List.append_assoc]
  refine ⟨key, ?_⟩
  rw [key]
  simp [allP, allP_append]

/-- Witness for C7's amended theorem on the concrete FamilyB host
`envHeadersMissing`. -/
theorem c7_amended_headers_missing_witness :
    runFullSetup envHeadersMissing =
      (.error (ubuntuHeadersErr "6.8.0-40-generic"),
       [Eff.log "Starting automated build of ec_sys module...",
        Eff.log "1/13 Installing build tools..."] ++ (installDeps envHeadersMissing).2
       ++ [Eff.lookPath "apt-get",
           Eff.log "Starting Ubuntu-specific build for ec_sys module...",
           Eff.mkdirTemp "ec_sys_ubuntu" "/tmp/build",
           Eff.removeAll "/tmp/build"]) :=
  (c7_amended_headers_missing envHeadersMissing rfl rfl rfl rfl rfl).1

/-- C7 counterexample.  At release `6.8.0-40-generic` the failure message
does not contain the missing path `/lib/modules/6.8.0-40-generic/build`
(it names only the install command), and the run's trace does contain the
step-1 command `apt-get install ... linux-headers-6.8.0-40-generic`, i.e.
the pipeline had automatically attempted a header install. -/
theorem c7_counterexample :
    (runFullSetup envHeadersMissing).1 = .error (ubuntuHeadersErr "6.8.0-40-generic") ∧
    goContains (ubuntuHeadersErr "6.8.0-40-generic")
      "/lib/modules/6.8.0-40-generic/build" = false ∧
    goContains (ubuntuHeadersErr "6.8.0-40-generic")
      "sudo apt install linux-headers-6.8.0-40-generic" = true ∧
    (runFullSetup envHeadersMissing).2.any
      (fun e => decide (e = Eff.cmd (aptInstallArgv "6.8.0-40-generic") "")) = true := by
  refine ⟨rfl, by decide, by decide, by decide⟩

/-! ## C5: FamilyA install destination and dependency-index refresh -/

@[simp] theorem isDepmodCmd_log (s : String) : isDepmodCmd (Eff.log s) = false := rfl

@[simp] theorem isDepmodCmd_lookPath (s : String) : isDepmodCmd (Eff.lookPath s) = false := rfl

@[simp] theorem isDepmodCmd_mkdirTemp (p d : String) :
    isDepmodCmd (Eff.mkdirTemp p d) = false := rfl

@[simp] theorem isDepmodCmd_removeAll (p : String) : isDepmodCmd (Eff.removeAll p) = false := rfl

@[simp] theorem isDepmodCmd_mkdirAll (p : String) : isDepmodCmd (Eff.mkdirAll p) = false := rfl

@[simp] theorem isDepmodCmd_writeFile (p c : String) :
    isDepmodCmd (Eff.writeFile p c) = false := rfl

@[simp] theorem isDepmodCmd_appendFile (p c : String) :
    isDepmodCmd (Eff.appendFile p c) = false := rfl

@[simp] theorem isDepmodCmd_depmod (d : String) :
    isDepmodCmd (Eff.cmd ["depmod", "-a"] d) = true := rfl

@[simp] theorem c5Clean_log (s : String) : c5Clean (Eff.log s) = true := rfl

@[simp] theorem c5Clean_lookPath (s : String) : c5Clean (Eff.lookPath s) = true := rfl

@[simp] theorem c5Clean_mkdirTemp (p d : String) : c5Clean (Eff.mkdirTemp p d) = true := rfl

@[simp] theorem c5Clean_removeAll (p : String) : c5Clean (Eff.removeAll p) = true := rfl

@[simp] theorem c5Clean_mkdirAll (p : String) : c5Clean (Eff.mkdirAll p) = true := rfl

@[simp] theorem c5Clean_writeFile (p c : String) : c5Clean (Eff.writeFile p c) = true := rfl

@[simp] theorem c5Clean_appendFile (p c : String) : c5Clean (Eff.appendFile p c) = true := rfl

@[simp] theorem c5Clean_dnfInstall (r d : String) :
    c5Clean (Eff.cmd (dnfInstallArgv r) d) = true := rfl

@[simp] theorem c5Clean_aptUpdate (d : String) :
    c5Clean (Eff.cmd aptUpdateArgv d) = true := rfl

@[simp] theorem c5Clean_aptInstall (r d : String) :
    c5Clean (Eff.cmd (aptInstallArgv r) d) = true := rfl

@[simp] theorem c5Clean_repoEnable (d : String) :
    c5Clean (Eff.cmd repoEnableArgv d) = true := rfl

@[simp] theorem c5Clean_download (r d : String) :
    c5Clean (Eff.cmd (dnfDownloadArgv r) d) = true := rfl

@[simp] theorem c5Clean_dnf4 (a b c d : String) :
    c5Clean (Eff.cmd ["dnf", a, b, c] d) = true := rfl

@[simp] theorem c5Clean_rpm4 (a b c d : String) :
    c5Clean (Eff.cmd ["rpm", a, b, c] d) = true := rfl

@[simp] theorem c5Clean_rpmbuild5 (a b c e d : String) :
    c5Clean (Eff.cmd ["rpmbuild", a, b, c, e] d) = true := rfl

@[simp] theorem c5Clean_cp_config (x d : String) :
    c5Clean (Eff.cmd ["cp", x, ".config"] d) = true := rfl

@[simp] theorem c5Clean_cp_dot (x d : String) :
    c5Clean (Eff.cmd ["cp", x, "."] d) = true := rfl

@[simp] theorem c5Clean_make2 (a d : String) :
    c5Clean (Eff.cmd ["make", a] d) = true := rfl

@[simp] theorem c5Clean_make3 (a b d : String) :
    c5Clean (Eff.cmd ["make", a, b] d) = true := rfl

@[simp] theorem c5Clean_mkdir3 (a d : String) :
    c5Clean (Eff.cmd ["mkdir", "-p", a] d) = true := rfl

@[simp] theorem isCpToDest_install_c5 (src d : String) :
    isCpToDest c5Dest (Eff.cmd ["cp", src,
      joinPath "/lib/modules/6.8.0-200.fc39.x86_64/extra" "ec_sys.ko"] d) = true := rfl

@[simp] theorem allP_c5Clean_map_log (l : List String) :
    allP c5Clean (l.map Eff.log) = true := by
  induction l <;> simp_all [allP]

theorem allP_c5Clean_runT (env : Env) (argv : List String) (dir : String)
    (h : c5Clean (Eff.cmd argv dir) = true) :
    allP c5Clean (runT env argv dir).2 = true := by
  simp [runT, allP, allP_append, h]

@[simp] theorem allP_c5Clean_installDeps (env : Env) :
    allP c5Clean (installDeps env).2 = true := by
  rw [installDeps]
  cases hd : env.hasDnf <;> cases ha : env.hasApt <;>
    simp [seqRT, runT, allP, allP_append]
  cases hu : (if env.cmdOk aptUpdateArgv then (Except.ok () : Res)
      else Except.error "command failed") <;> simp [allP, allP_append]

@[simp] theorem allP_c5Clean_mkTree (env : Env) (rd : String) (ds : List String) :
    allP c5Clean (mkTree env rd ds).2 = true := by
  induction ds with
  | nil => rfl
  | cons d ds ih =>
    rw [mkTree]
    by_cases h : env.mkdirAllOk (joinPath rd d) <;> simp [h, ih, allP]

@[simp] theorem allP_c5Clean_step4Download (env : Env) (w : String) :
    allP c5Clean (step4Download env w).2 = true := by
  rw [step4Download]
  by_cases h : env.hasDnf <;> simp [h, allP, allP_append, runT]

theorem c5Clean_split (e : Eff) (h : c5Clean e = true) :
    isDepmodCmd e = false ∧ isCpToDest c5Dest e = false := by
  revert h
  simp [c5Clean]

theorem countP_depmod_zero (t : List Eff) (h : allP c5Clean t = true) :
    t.countP isDepmodCmd = 0 := by
  induction t with
  | nil => simp
  | cons e t ih =>
    rw [allP] at h
    obtain ⟨he, ht⟩ := Bool.and_eq_true_iff.mp h
    rw [List.countP_cons, ih ht, (c5Clean_split e he).1]
    simp

theorem depmodAfterCp_append_clean (a b : List Eff) (h : allP c5Clean a = true) :
    depmodAfterCp c5Dest (a ++ b) = depmodAfterCp c5Dest b := by
  induction a with
  | nil => rfl
  | cons e t ih =>
    rw [allP] at h
    obtain ⟨he, ht⟩ := Bool.and_eq_true_iff.mp h
    rw [List.cons_append, depmodAfterCp, (c5Clean_split e he).2]
    simp [ih ht]

theorem depmodAfterCp_extend (b c : List Eff) (h : depmodAfterCp c5Dest b = true) :
    depmodAfterCp c5Dest (b ++ c) = true := by
  induction b with
  | nil => simp [depmodAfterCp] at h
  | cons e t ih =>
    rw [depmodAfterCp] at h
    rw [List.cons_append, depmodAfterCp]
    by_cases hce : isCpToDest c5Dest e
    · simp only [hce, if_true] at h ⊢
      simp [List.any_append, h]
    · simp only [hce, Bool.false_eq_true, if_false] at h ⊢
      exact ih h

@[simp] theorem countP_depmod_map_log (l : List String) :
    (l.map Eff.log).countP isDepmodCmd = 0 := by
  induction l <;> simp_all [List.countP_cons]

@[simp] theorem any_depmod_map_log (l : List String) :
    (l.map Eff.log).any isDepmodCmd = false := by
  induction l <;> simp_all

@[simp] theorem isDepmodCmd_mkdir (a d : String) :
    isDepmodCmd (Eff.cmd ["mkdir", "-p", a] d) = false := rfl

@[simp] theorem isDepmodCmd_cp3 (a b d : String) :
    isDepmodCmd (Eff.cmd ["cp", a, b] d) = false := rfl

@[simp] theorem isCpToDest_log (dest s : String) : isCpToDest dest (Eff.log s) = false := rfl

@[simp] theorem isCpToDest_lookPath (dest s : String) :
    isCpToDest dest (Eff.lookPath s) = false := rfl

@[simp] theorem isCpToDest_removeAll (dest p : String) :
    isCpToDest dest (Eff.removeAll p) = false := rfl

@[simp] theorem isCpToDest_mkdirTemp (dest p d : String) :
    isCpToDest dest (Eff.mkdirTemp p d) = false := rfl

@[simp] theorem isCpToDest_mkdir (dest a d : String) :
    isCpToDest dest (Eff.cmd ["mkdir", "-p", a] d) = false := rfl

@[simp] theorem isCpToDest_depmod (dest d : String) :
    isCpToDest dest (Eff.cmd ["depmod", "-a"] d) = false := rfl

theorem depmodAfterCp_cons_notcp (e : Eff) (t : List Eff)
    (h : isCpToDest c5Dest e = false) :
    depmodAfterCp c5Dest (e :: t) = depmodAfterCp c5Dest t := by
  simp [depmodAfterCp, h]

theorem depmodAfterCp_cons_cp (e : Eff) (t : List Eff)
    (h : isCpToDest c5Dest e = true) :
    depmodAfterCp c5Dest (e :: t) = t.any isDepmodCmd := by
  simp [depmodAfterCp, h]

@[simp] theorem depmodAfterCp_map_log_append (l : List String) (rest : List Eff) :
    depmodAfterCp c5Dest (l.map Eff.log ++ rest) = depmodAfterCp c5Dest rest :=
  depmodAfterCp_append_clean _ _ (allP_c5Clean_map_log l)

theorem installStep_c5 (env : Env) (kb : String)
    (hr : env.unameR = "6.8.0-200.fc39.x86_64")
    (hok : (installStep env kb).1 = .ok ()) :
    (installStep env kb).2.countP isDepmodCmd = 1 ∧
    depmodAfterCp c5Dest (installStep env kb).2 = true := by
  rw [installStep] at hok ⊢
  rw [hr] at hok ⊢
  by_cases h1 : env.statOk (joinPath (joinPath (joinPath kb "drivers") "acpi") "ec_sys.ko")
  case neg => simp [h1] at hok
  case pos =>
    simp only [h1, if_true, String.reduceAppend] at hok ⊢
    cases h2 : (runT env ["mkdir", "-p", "/lib/modules/6.8.0-200.fc39.x86_64/extra"] "").1
    case error => simp [h2] at hok
    case ok =>
      simp only [h2] at hok ⊢
      cases h3 : (runT env ["cp", joinPath (joinPath (joinPath kb "drivers") "acpi") "ec_sys.ko",
          joinPath "/lib/modules/6.8.0-200.fc39.x86_64/extra" "ec_sys.ko"] "").1
      case error => simp [h3] at hok
      case ok =>
        simp only [h3] at hok ⊢
        cases h4 : (runT env ["depmod", "-a"] "").1
        case error => simp [h4] at hok
        case ok =>
          simp only [h4] at hok ⊢
          constructor
          · simp only [runT, List.append_assoc, List.cons_append, List.singleton_append,
              List.nil_append, List.countP_append, List.countP_cons, List.countP_nil,
              countP_depmod_map_log, isDepmodCmd_log, isDepmodCmd_mkdir, isDepmodCmd_cp3,
              isDepmodCmd_depmod]
            simp
          · simp only [runT, List.append_assoc, List.cons_append, List.singleton_append,
              List.nil_append]
            rw [depmodAfterCp_cons_notcp _ _ (by simp),
                depmodAfterCp_cons_notcp _ _ (by simp),
                depmodAfterCp_cons_notcp _ _ (by simp),
                depmodAfterCp_map_log_append,
                depmodAfterCp_cons_notcp _ _ (by simp),
                depmodAfterCp_cons_cp _ _ (by simp)]
            simp [List.any_append]

theorem after10_c5 (env : Env) (kb : String)
    (hr : env.unameR = "6.8.0-200.fc39.x86_64")
    (hok : (after10 env kb).1 = .ok ()) :
    (after10 env kb).2.countP isDepmodCmd = 1 ∧
    depmodAfterCp c5Dest (after10 env kb).2 = true := by
  rw [after10] at hok ⊢
  have hx2 : allP c5Clean
      (if env.statOk ("/usr/src/kernels/" ++ env.unameR ++ "/Module.symvers") then
        runT env ["cp", "/usr/src/kernels/" ++ env.unameR ++ "/Module.symvers", "."] kb
      else ((.ok (), []) : Res × List Eff)).2 = true := by
    by_cases hs : env.statOk ("/usr/src/kernels/" ++ env.unameR ++ "/Module.symvers") <;>
      simp [hs, allP, allP_append, runT]
  cases h1 : (runT env ["make", "modules_prepare"] kb).1
  case error => simp [h1] at hok
  case ok =>
    simp only [h1] at hok ⊢
    cases h2 : (if env.statOk ("/usr/src/kernels/" ++ env.unameR ++ "/Module.symvers") then
        runT env ["cp", "/usr/src/kernels/" ++ env.unameR ++ "/Module.symvers", "."] kb
      else ((.ok (), []) : Res × List Eff)).1
    case error => simp [h2] at hok
    case ok =>
      simp only [h2] at hok ⊢
      cases h3 : (runT env ["make", "M=drivers/acpi", "modules"] kb).1
      case error => simp [h3] at hok
      case ok =>
        simp only [h3] at hok ⊢
        obtain ⟨hc, hd⟩ := installStep_c5 env kb hr hok
        have z1 : (runT env ["make", "modules_prepare"] kb).2.countP isDepmodCmd = 0 :=
          countP_depmod_zero _ (allP_c5Clean_runT env _ kb rfl)
        have z2 : (if env.statOk ("/usr/src/kernels/" ++ env.unameR ++ "/Module.symvers") then
            runT env ["cp", "/usr/src/kernels/" ++ env.unameR ++ "/Module.symvers", "."] kb
          else ((.ok (), []) : Res × List Eff)).2.countP isDepmodCmd = 0 :=
          countP_depmod_zero _ hx2
        have z3 : (runT env ["make", "M=drivers/acpi", "modules"] kb).2.countP isDepmodCmd = 0 :=
          countP_depmod_zero _ (allP_c5Clean_runT env _ kb rfl)
        have hclean : allP c5Clean
            ([Eff.log "11/13 Preparing build..."] ++ (runT env ["make", "modules_prepare"] kb).2
              ++ (if env.statOk ("/usr/src/kernels/" ++ env.unameR ++ "/Module.symvers") then
                    runT env ["cp", "/usr/src/kernels/" ++ env.unameR ++ "/Module.symvers", "."] kb
                  else ((.ok (), []) : Res × List Eff)).2
              ++ [Eff.log "12/13 Building module (this may take a while)..."]
              ++ (runT env ["make", "M=drivers/acpi", "modules"] kb).2) = true := by
          simp [allP, allP_append, hx2, allP_c5Clean_runT]
        constructor
        · simp [List.countP_append, z1, z2, z3, hc, List.countP_cons]
        · rw [depmodAfterCp_append_clean _ _ hclean]
          exact hd

theorem midSteps_c5 (env : Env) (kb : String)
    (hr : env.unameR = "6.8.0-200.fc39.x86_64")
    (hok : (midSteps env kb).1 = .ok ()) :
    (midSteps env kb).2.countP isDepmodCmd = 1 ∧
    depmodAfterCp c5Dest (midSteps env kb).2 = true := by
  rw [midSteps] at hok ⊢
  cases h1 : (runT env ["cp", "/boot/config-" ++ env.unameR, ".config"] kb).1
  case error => simp [h1] at hok
  case ok =>
    simp only [h1] at hok ⊢
    have z1 : (runT env ["cp", "/boot/config-" ++ env.unameR, ".config"] kb).2.countP
        isDepmodCmd = 0 :=
      countP_depmod_zero _ (allP_c5Clean_runT env _ kb rfl)
    by_cases h2 : env.openAppendOk (joinPath kb ".config")
    case pos =>
      cases h3 : env.writeStringOk
      case false => simp [h2, h3] at hok
      case true =>
        simp only [h2, h3, if_true] at hok ⊢
        obtain ⟨hc, hd⟩ := after10_c5 env kb hr hok
        have hclean : allP c5Clean
            ([Eff.log "10/13 Configuring kernel..."]
              ++ (runT env ["cp", "/boot/config-" ++ env.unameR, ".config"] kb).2
              ++ [Eff.appendFile (joinPath kb ".config") configAppendLine]) = true := by
          simp [allP, allP_append, allP_c5Clean_runT]
        constructor
        · simp [List.countP_append, z1, hc, List.countP_cons]
        · rw [depmodAfterCp_append_clean _ _ hclean]
          exact hd
    case neg =>
      simp only [h2, Bool.false_eq_true, if_false] at hok ⊢
      obtain ⟨hc, hd⟩ := after10_c5 env kb hr hok
      have hclean : allP c5Clean
          ([Eff.log "10/13 Configuring kernel..."]
            ++ (runT env ["cp", "/boot/config-" ++ env.unameR, ".config"] kb).2) = true := by
        simp [allP, allP_append, allP_c5Clean_runT]
      constructor
      · simp [List.countP_append, z1, hc, List.countP_cons]
      · rw [depmodAfterCp_append_clean _ _ hclean]
        exact hd

theorem stepsFrom9_c5 (env : Env) (kb : String)
    (hr : env.unameR = "6.8.0-200.fc39.x86_64")
    (hok : (stepsFrom9 env kb).1 = .ok ()) :
    (stepsFrom9 env kb).2.countP isDepmodCmd = 1 ∧
    depmodAfterCp c5Dest (stepsFrom9 env kb).2 = true := by
  rw [stepsFrom9] at hok ⊢
  rw [hr] at hok ⊢
  rw [show extraVersionLine "6.8.0-200.fc39.x86_64"
      = some "EXTRAVERSION = -200.fc39.x86_64" from rfl] at hok ⊢
  dsimp only at hok ⊢
  have hok2 : (midSteps env kb).1 = .ok () := hok
  obtain ⟨hc, hd⟩ := midSteps_c5 env kb hr hok2
  have hclean : allP c5Clean ([Eff.log "9/13 Patching Makefile..."]
      ++ replaceInFileT env (joinPath kb "Makefile") "EXTRAVERSION = -200.fc39.x86_64") = true := by
    rw [replaceInFileT]
    cases hR : env.readFile (joinPath kb "Makefile") <;> simp [allP, allP_append]
  constructor
  · have zp : ([Eff.log "9/13 Patching Makefile..."]
        ++ replaceInFileT env (joinPath kb "Makefile")
            "EXTRAVERSION = -200.fc39.x86_64").countP isDepmodCmd = 0 :=
      countP_depmod_zero _ hclean
    rw [List.countP_append, zp, hc]
  · rw [depmodAfterCp_append_clean _ _ hclean]
    exact hd

theorem fedoraBody_c5 (env : Env) (w : String)
    (hr : env.unameR = "6.8.0-200.fc39.x86_64")
    (hok : (fedoraBody env w).1 = .ok ()) :
    (fedoraBody env w).2.countP isDepmodCmd = 1 ∧
    depmodAfterCp c5Dest (fedoraBody env w).2 = true := by
  rw [fedoraBody] at hok ⊢
  cases h3 : (mkTree env (joinPath w "rpmbuild") rpmDirsList).1
  case error => simp [h3] at hok
  case ok =>
    simp only [h3] at hok ⊢
    cases h4 : (step4Download env w).1
    case error => simp [h4] at hok
    case ok =>
      simp only [h4] at hok ⊢
      cases hS : findSrcRpm env w
      case none => simp [hS] at hok
      case some srcRpm =>
        simp only [hS] at hok ⊢
        cases h5 : (runT env ["dnf", "builddep", "-y", srcRpm] "").1
        case error => simp [h5] at hok
        case ok =>
          simp only [h5] at hok ⊢
          cases h6 : (runT env ["rpm", "-i",
              "--define=_topdir " ++ joinPath w "rpmbuild", srcRpm] "").1
          case error => simp [h6] at hok
          case ok =>
            simp only [h6] at hok ⊢
            cases h7 : (runT env ["rpmbuild", "-bp",
                "--define=_topdir " ++ joinPath w "rpmbuild", "--target=" ++ env.unameM,
                "kernel.spec"] (joinPath (joinPath w "rpmbuild") "SPECS")).1
            case error => simp [h7] at hok
            case ok =>
              simp only [h7] at hok ⊢
              cases h8 : env.findLinuxDir (joinPath (joinPath w "rpmbuild") "BUILD")
              case none => simp [h8] at hok
              case some kb =>
                simp only [h8] at hok ⊢
                obtain ⟨hc, hd⟩ := stepsFrom9_c5 env kb hr hok
                have hclean : allP c5Clean
                    ([Eff.log "3/13 Setting up RPM build tree..."]
                      ++ (mkTree env (joinPath w "rpmbuild") rpmDirsList).2
                      ++ (step4Download env w).2
                      ++ [Eff.log "5/13 Installing build dependencies..."]
                      ++ (runT env ["dnf", "builddep", "-y", srcRpm] "").2
                      ++ [Eff.log "6/13 Installing source RPM..."]
                      ++ (runT env ["rpm", "-i",
                            "--define=_topdir " ++ joinPath w "rpmbuild", srcRpm] "").2
                      ++ [Eff.log "7/13 Preparing kernel source tree..."]
                      ++ (runT env ["rpmbuild", "-bp",
                            "--define=_topdir " ++ joinPath w "rpmbuild",
                            "--target=" ++ env.unameM, "kernel.spec"]
                            (joinPath (joinPath w "rpmbuild") "SPECS")).2
                      ++ [Eff.log "8/13 Locating build directory..."]) = true := by
                  simp [allP, allP_append, allP_c5Clean_runT]
                constructor
                · rw [List.countP_append, countP_depmod_zero _ hclean, hc]
                · rw [depmodAfterCp_append_clean _ _ hclean]
                  exact hd

/-- C5.  For any FamilyA run with release `6.8.0-200.fc39.x86_64` that
succeeds, the run's trace contains exactly one dependency-index refresh
(`depmod -a`), and it occurs strictly after the copy of the built
artifact to exactly `/lib/modules/6.8.0-200.fc39.x86_64/extra/ec_sys.ko`
(`depmodAfterCp` finds the copy to that destination and a `depmod -a`
strictly after it). -/
theorem c5_install_path_and_depmod (env : Env)
    (hr : env.unameR = "6.8.0-200.fc39.x86_64") (ha : env.hasApt = false)
    (hok : (runFullSetup env).1 = .ok ()) :
    (runFullSetup env).2.countP isDepmodCmd = 1 ∧
    depmodAfterCp c5Dest (runFullSetup env).2 = true := by
  rw [runFullSetup] at hok ⊢
  by_cases h0 : env.euid = 0
  case neg => simp [h0] at hok
  case pos =>
    simp only [h0, ne_eq, not_true_eq_false, if_false] at hok ⊢
    cases h1 : (installDeps env).1
    case error => simp [h1] at hok
    case ok =>
      simp only [h1, ha, Bool.false_eq_true, if_false] at hok ⊢
      rw [fedoraRun] at hok ⊢
      by_cases h2 : env.tmpDirOk
      case neg => simp [h2] at hok
      case pos =>
        simp only [h2, if_true] at hok ⊢
        obtain ⟨hc, hd⟩ := fedoraBody_c5 env (env.tmpName "ec_sys_build") hr hok
        have hacc : allP c5Clean
            ([Eff.log "Starting automated build of ec_sys module...",
              Eff.log "1/13 Installing build tools..."] ++ (installDeps env).2
              ++ [Eff.lookPath "apt-get"]) = true := by
          simp [allP, allP_append]
        have hpre2 : allP c5Clean
            ([Eff.log "2/13 Creating temporary directory..."]
              ++ [Eff.mkdirTemp "ec_sys_build" (env.tmpName "ec_sys_build"),
                  Eff.log ("Working in " ++ env.tmpName "ec_sys_build")]) = true := by
          simp [allP, allP_append]
        constructor
        · rw [List.countP_append, countP_depmod_zero _ hacc]
          rw [List.countP_append, List.countP_append,
              countP_depmod_zero _ hpre2, hc]
          simp [List.countP_cons]
        · rw [depmodAfterCp_append_clean _ _ hacc]
          rw [depmodAfterCp_extend]
          rw [depmodAfterCp_append_clean _ _ hpre2]
          exact hd

/-- Witness for C5 on the concrete all-succeeding FamilyA host. -/
theorem c5_install_path_and_depmod_witness :
    (runFullSetup sampleEnvA).1 = .ok () ∧
    (runFullSetup sampleEnvA).2.countP isDepmodCmd = 1 ∧
    depmodAfterCp c5Dest (runFullSetup sampleEnvA).2 = true := by
  have hok : (runFullSetup sampleEnvA).1 = .ok () := by rfl
  exact ⟨hok, (c5_install_path_and_depmod sampleEnvA rfl rfl hok).1,
    (c5_install_path_and_depmod sampleEnvA rfl rfl hok).2⟩
